import Mathlib

/-!
Shallow embedding of the 0xNote Markdown editor's state layer, verified
against its natural-language specification.

The embedding covers:
* the File Store (`src/stores/fileStore.ts`): document state, dirty
  tracking, open/save/save-as/new-file operations, and the trailing-edge
  debounced autosave (`lodash.debounce(…, 1000)` plus the
  `watch(content, …)` callback);
* the scroll-synchronization coordinator (`src/App.vue`,
  `handleEditorScroll` / `handlePreviewScroll`) and the scroll-percentage
  computation of the two views (`MemoEditor.vue` / `MemoPreview.vue`);
* the Windows registry unregistration routine
  (`electron/registry.ts`, `unregisterWindowsIntegration`);
* the launch-argument handling (`electron/main.ts` and
  `src/stores/appStore.ts`, `getLaunchFilePath`).

Modelling conventions: the single-threaded, event-driven runtime is
modelled as explicit state passing; each asynchronous platform call
(file read/write, dialog) takes its outcome as an explicit
`FileOperationResult` argument (the oracle chooses it); wall-clock time
is an explicit `now : Nat` in milliseconds.  Vue's `watch(content, …)`
fires only when the `ref` value actually changes (`Object.is`
comparison) and flushes after the mutating function finishes; inside
`openFile`/`createNewFile` the flush sees `content = originalContent`,
so the watcher neither changes the status nor re-arms the timer there,
and it is folded into `updateContent` where it does act.
-/

namespace OxNote

/-- `SaveStatus` from `fileStore.ts`: `'saved' | 'unsaved' | 'saving' | 'error'`. -/
inductive SaveStatus where
  | saved
  | unsaved
  | saving
  | error
deriving DecidableEq, Repr

/-- `FileMetadata` from `src/common/types/filesystem.ts`. -/
structure FileMetadata where
  fileName : String
  filePath : String
  size : Nat
  lastModified : Nat
  isReadOnly : Bool
deriving DecidableEq, Repr

/-- `FileOperationResult<T>` from `src/common/types/filesystem.ts`. -/
structure FileOperationResult (α : Type) where
  success : Bool
  data : Option α := none
  error : Option String := none
  errorCode : Option String := none
deriving DecidableEq, Repr

/-- `AppSettings` from `src/common/types/config.ts`.  The `theme` and
`fontFamily` fields are kept as plain strings. -/
structure AppSettings where
  fontSize : Nat
  fontFamily : String
  theme : String
  autoSave : Bool
  autoSaveDelay : Nat
  showLineNumbers : Bool
  tabSize : Nat
  syncScroll : Bool
deriving DecidableEq, Repr

/-- `DEFAULT_SETTINGS` from `src/common/types/config.ts` (lines 38–47). -/
def DEFAULT_SETTINGS : AppSettings :=
  { fontSize := 14
    fontFamily := "'JetBrains Mono', 'Fira Code', Consolas, monospace"
    theme := "dark"
    autoSave := true
    autoSaveDelay := 1000
    showLineNumbers := true
    tabSize := 4
    syncScroll := true }

/-- The debounce wait hard-coded at the `debounce(async () => {…}, 1000)`
call in `fileStore.ts` (line 202).  Note it is a literal `1000`, not a
read of the `autoSaveDelay` setting. -/
def debounceDelay : Nat := 1000

/-- One `writeFile` request issued to the file-system service. -/
structure WriteCall where
  path : String
  content : String
deriving DecidableEq, Repr

/-- The reactive state of the File Store (`fileStore.ts` lines 29–47),
plus `pendingSaveAt`: the absolute deadline (ms) of the single
trailing-edge debounce timer owned by `debouncedSave`, `none` when no
timer is armed. -/
structure FileStoreState where
  currentFilePath : Option String
  content : String
  originalContent : String
  fileMetadata : Option FileMetadata
  saveStatus : SaveStatus
  lastSavedAt : Option Nat
  errorMessage : Option String
  pendingSaveAt : Option Nat
deriving DecidableEq, Repr

/-- The store's initial state (the `ref` initialisers in
`fileStore.ts` lines 29–47). -/
def initialState : FileStoreState :=
  { currentFilePath := none
    content := ""
    originalContent := ""
    fileMetadata := none
    saveStatus := SaveStatus.saved
    lastSavedAt := none
    errorMessage := none
    pendingSaveAt := none }

/-- The `hasUnsavedChanges` computed getter (`fileStore.ts` lines 52–54):
`content !== originalContent`. -/
def hasUnsavedChanges (st : FileStoreState) : Bool :=
  st.content != st.originalContent

/-- Outcome of a store action: the new state, the `writeFile` calls it
issued to the file-system service, and its boolean return value. -/
structure ActionResult where
  state : FileStoreState
  writes : List WriteCall
  ok : Bool
deriving DecidableEq, Repr

/-- `updateContent` (`fileStore.ts` lines 186–191) together with the
`watch(content, …)` callback (lines 205–210).  The watcher runs only when
the assignment actually changed `content`; when it runs and
`hasUnsavedChanges` holds it sets the status to `unsaved` and calls
`debouncedSave()`, which cancels and re-arms the single trailing-edge
timer to fire `debounceDelay` ms from now. -/
def updateContent (now : Nat) (newContent : String) (st : FileStoreState) :
    FileStoreState :=
  let changed := newContent != st.content
  let st1 := { st with content := newContent }
  let st2 :=
    if hasUnsavedChanges st1 then { st1 with saveStatus := SaveStatus.unsaved } else st1
  if changed && hasUnsavedChanges st2 then
    { st2 with saveStatus := SaveStatus.unsaved
               pendingSaveAt := some (now + debounceDelay) }
  else st2

/-- The first, synchronous phase of `openFile` (`fileStore.ts` lines
79–80): the status is set to `'saving'` (reused as a loading indicator)
and the error message cleared before the file read is awaited. -/
def openFileBegin (st : FileStoreState) : FileStoreState :=
  { st with saveStatus := SaveStatus.saving, errorMessage := none }

/-- The rest of `openFile` (`fileStore.ts` lines 82–107), resumed after
the awaited `readFile` and `getFileMetadata` calls whose outcomes are
`readRes` and `metaRes`.  A failed read throws
`new Error(result.error ?? '读取文件失败')`, caught by the handler that
records the message and sets the status to `'error'`. -/
def openFileFinish (filePath : String) (readRes : FileOperationResult String)
    (metaRes : FileOperationResult FileMetadata) (st : FileStoreState) :
    FileStoreState × Bool :=
  match readRes.success, readRes.data with
  | true, some text =>
      let st1 := { st with content := text, originalContent := text,
                           currentFilePath := some filePath }
      let st2 :=
        match metaRes.success, metaRes.data with
        | true, some m => { st1 with fileMetadata := some m }
        | _, _ => st1
      ({ st2 with saveStatus := SaveStatus.saved }, true)
  | _, _ =>
      ({ st with errorMessage := some (readRes.error.getD "读取文件失败"),
                 saveStatus := SaveStatus.error }, false)

/-- `openFile` (`fileStore.ts` lines 77–108): the begin phase followed by
the resumption with the read and metadata outcomes. -/
def openFile (filePath : String) (readRes : FileOperationResult String)
    (metaRes : FileOperationResult FileMetadata) (st : FileStoreState) :
    FileStoreState × Bool :=
  openFileFinish filePath readRes metaRes (openFileBegin st)

/-- The `try` block of `saveFile` (`fileStore.ts` lines 122–146) with a
known target path: sets `'saving'`, issues exactly one `writeFile` call
with the current content (`writeRes` is its outcome), then records
success or failure. -/
def saveFileAt (now : Nat) (targetPath : String)
    (writeRes : FileOperationResult Unit) (st : FileStoreState) : ActionResult :=
  let st1 := { st with saveStatus := SaveStatus.saving, errorMessage := none }
  let call : WriteCall := { path := targetPath, content := st1.content }
  if writeRes.success then
    { state := { st1 with originalContent := st1.content,
                          currentFilePath := some targetPath,
                          saveStatus := SaveStatus.saved,
                          lastSavedAt := some now }
      writes := [call], ok := true }
  else
    { state := { st1 with errorMessage := some (writeRes.error.getD "保存文件失败"),
                          saveStatus := SaveStatus.error }
      writes := [call], ok := false }

/-- `saveFileAs` (`fileStore.ts` lines 152–169): shows the save dialog
(outcome `dialogRes`); on cancel (`!result.success || !result.data`,
where the empty string is falsy in JS) it returns `false` leaving the
state untouched, otherwise it delegates to `saveFile(result.data)`. -/
def saveFileAs (now : Nat) (dialogRes : FileOperationResult String)
    (writeRes : FileOperationResult Unit) (st : FileStoreState) : ActionResult :=
  match dialogRes.success, dialogRes.data with
  | true, some p =>
      if p = "" then { state := st, writes := [], ok := false }
      else saveFileAt now p writeRes st
  | _, _ => { state := st, writes := [], ok := false }

/-- `saveFile` (`fileStore.ts` lines 114–147): the target is
`forcePath ?? currentFilePath`; a missing (or, by JS truthiness, empty)
target delegates to `saveFileAs`. -/
def saveFile (now : Nat) (forcePath : Option String)
    (dialogRes : FileOperationResult String) (writeRes : FileOperationResult Unit)
    (st : FileStoreState) : ActionResult :=
  match forcePath.orElse (fun _ => st.currentFilePath) with
  | none => saveFileAs now dialogRes writeRes st
  | some targetPath =>
      if targetPath = "" then saveFileAs now dialogRes writeRes st
      else saveFileAt now targetPath writeRes st

/-- The `debouncedSave` callback firing after the quiet period
(`fileStore.ts` lines 196–202): the timer is consumed, and
`saveFile()` runs only when `currentFilePath.value` is truthy and
`hasUnsavedChanges` holds. -/
def fireAutosave (now : Nat) (writeRes : FileOperationResult Unit)
    (st : FileStoreState) : ActionResult :=
  let st0 := { st with pendingSaveAt := none }
  match st0.currentFilePath with
  | some p =>
      if p != "" && hasUnsavedChanges st0 then saveFileAt now p writeRes st0
      else { state := st0, writes := [], ok := true }
  | none => { state := st0, writes := [], ok := true }

/-- `createNewFile` (`fileStore.ts` lines 174–181).  `lastSavedAt` and the
pending debounce timer are not touched by the source. -/
def createNewFile (st : FileStoreState) : FileStoreState :=
  { st with content := "", originalContent := "", currentFilePath := none,
            fileMetadata := none, saveStatus := SaveStatus.saved,
            errorMessage := none }

/-- A sequence of `updateContent` calls with nothing in between. -/
def applyUpdates (now : Nat) (us : List String) (st : FileStoreState) :
    FileStoreState :=
  us.foldl (fun s u => updateContent now u s) st

/-- `N` rapid `updateContent` calls inside one debounce window (no timer
fires in between), followed by a quiet period in which the pending
trailing-edge timer, if any, fires exactly once.  Returns the final
state and the `writeFile` calls issued. -/
def runUpdatesThenFire (now : Nat) (writeRes : FileOperationResult Unit)
    (us : List String) (st : FileStoreState) : FileStoreState × List WriteCall :=
  let stEnd := applyUpdates now us st
  match stEnd.pendingSaveAt with
  | some _ =>
      let r := fireAutosave now writeRes stEnd
      (r.state, r.writes)
  | none => (stEnd, [])

/-- One completed File Store operation, with the outcomes of the
asynchronous platform calls it performs supplied by the oracle. -/
inductive Op where
  | update (now : Nat) (s : String)
  | openF (filePath : String) (readRes : FileOperationResult String)
      (metaRes : FileOperationResult FileMetadata)
  | save (now : Nat) (dialogRes : FileOperationResult String)
      (writeRes : FileOperationResult Unit)
  | saveAs (now : Nat) (dialogRes : FileOperationResult String)
      (writeRes : FileOperationResult Unit)
  | newFile
  | autosave (now : Nat) (writeRes : FileOperationResult Unit)

/-- Effect of one completed operation on the store state. -/
def step (st : FileStoreState) (op : Op) : FileStoreState :=
  match op with
  | Op.update now s => updateContent now s st
  | Op.openF p r m => (openFile p r m st).1
  | Op.save now d w => (saveFile now none d w st).state
  | Op.saveAs now d w => (saveFileAs now d w st).state
  | Op.newFile => createNewFile st
  | Op.autosave now w => (fireAutosave now w st).state

/-- States reachable from the store's initial state by a sequence of
completed operations. -/
def run (ops : List Op) : FileStoreState :=
  ops.foldl step initialState

/-! ### Scroll synchronisation (`App.vue`, `MemoEditor.vue`, `MemoPreview.vue`) -/

/-- The two independently scrollable views. -/
inductive View where
  | editor
  | preview
deriving DecidableEq, Repr

/-- The view on the other side of the coordinator. -/
def View.other : View → View
  | View.editor => View.preview
  | View.preview => View.editor

/-- A programmatic `scrollToPercentage` command issued by the coordinator
to one of the views. -/
structure ScrollCommand where
  target : View
  percentage : ℚ
deriving DecidableEq, Repr

/-- The coordinator's only piece of state: the module-level
`isSyncingScroll` re-entrancy flag of `App.vue` (line 29). -/
structure CoordinatorState where
  isSyncingScroll : Bool
deriving DecidableEq, Repr

/-- Availability of the two template refs `editorRef` / `previewRef`. -/
structure ViewRefs where
  editorAvailable : Bool
  previewAvailable : Bool
deriving DecidableEq, Repr

/-- Whether the ref for a given view is non-null. -/
def ViewRefs.available (r : ViewRefs) : View → Bool
  | View.editor => r.editorAvailable
  | View.preview => r.previewAvailable

/-- `handleEditorScroll` / `handlePreviewScroll` from `App.vue`
(lines 215–242), merged over the originating view: when the sync-scroll
setting is off, or the flag is set, or the other view's ref is null, the
event is ignored; otherwise the flag is raised and one
`scrollToPercentage` command is issued to the other view (the
`setTimeout` clearing the flag after 100 ms is modelled by
`unlockSync` below). -/
def handleViewScroll (syncScroll : Bool) (refs : ViewRefs) (origin : View)
    (p : ℚ) (st : CoordinatorState) : CoordinatorState × List ScrollCommand :=
  if !syncScroll then (st, [])
  else if st.isSyncingScroll || !(refs.available origin.other) then (st, [])
  else ({ isSyncingScroll := true }, [{ target := origin.other, percentage := p }])

/-- The `setTimeout(() => { isSyncingScroll = false }, 100)` callback. -/
def unlockSync (_st : CoordinatorState) : CoordinatorState :=
  { isSyncingScroll := false }

/-- One complete user-initiated scroll episode: the handler of the
originating view runs; every command it issues provokes, via the DOM,
a scroll event on the commanded view (reporting some percentage
`pProvoked`), which is handled while the flag is still raised — the
100 ms unlock timer (`unlockSync`) runs only after that. -/
def processUserScroll (syncScroll : Bool) (refs : ViewRefs) (origin : View)
    (p pProvoked : ℚ) (st : CoordinatorState) :
    CoordinatorState × List ScrollCommand :=
  let first := handleViewScroll syncScroll refs origin p st
  let echoed := first.2.foldl
    (fun acc c =>
      let r := handleViewScroll syncScroll refs c.target pProvoked acc.1
      (r.1, acc.2 ++ r.2))
    (first.1, ([] : List ScrollCommand))
  (unlockSync echoed.1, first.2 ++ echoed.2)

/-- `handleScroll` from `MemoEditor.vue` (lines 314–323) and
`MemoPreview.vue` (lines 247–255): the emitted percentage is
`scrollTop / (scrollHeight - clientHeight)` when that denominator is
positive, and `0` otherwise. -/
def scrollPercentage (scrollTop scrollHeight clientHeight : ℚ) : ℚ :=
  let maxScroll := scrollHeight - clientHeight
  if maxScroll > 0 then scrollTop / maxScroll else 0

/-! ### Windows registry unregistration (`electron/registry.ts`) -/

/-- `APP_NAME` from `registry.ts` (line 27). -/
def APP_NAME : String := "0xNote"

/-- `FILE_TYPE_ID` from `registry.ts` (line 28). -/
def FILE_TYPE_ID : String := "0xNote.MarkdownFile"

/-- The registry root used by `registry.ts`: `HKCR` when running
elevated, else `HKCU\Software\Classes` (lines 115, 160, 218). -/
def registryRootKey (admin : Bool) : String :=
  if admin then "HKCR" else "HKCU\\Software\\Classes"

/-- The shared extension-association key for `.md` under the chosen
root — the key other applications' associations also live under. -/
def mdExtensionKey (admin : Bool) : String :=
  registryRootKey admin ++ "\\.md"

/-- The four keys `unregisterWindowsIntegration` (`registry.ts` lines
220–225) passes to `reg delete <key> /f` — each a whole-key deletion
(no `/v`/`/ve` value selector), removing the key with all its
subkeys. -/
def unregisterDeleteKeys (admin : Bool) : List String :=
  let rootKey := registryRootKey admin
  [ rootKey ++ "\\.md"
  , rootKey ++ "\\" ++ FILE_TYPE_ID
  , rootKey ++ "\\Directory\\Background\\shell\\" ++ APP_NAME
  , rootKey ++ "\\Directory\\shell\\" ++ APP_NAME ]

/-- `RegistryResult` from `registry.ts` (lines 33–37). -/
structure RegistryResult where
  success : Bool
  error : Option String := none
  requiresAdmin : Option Bool := none
deriving DecidableEq, Repr

/-- `unregisterWindowsIntegration` (`registry.ts` lines 215–238): every
deletion is attempted in order; `deleteFails` says which `reg delete`
invocations error (e.g. because the key is already absent) — each
failure is swallowed by the per-command `try/catch`, the loop never
aborts, and the function unconditionally returns `{ success: true }`.
Returns the result together with the keys whose wholesale deletion was
attempted. -/
def unregisterWindowsIntegration (admin : Bool) (deleteFails : String → Bool) :
    RegistryResult × List String :=
  let attempted := (unregisterDeleteKeys admin).foldl
    (fun acc k =>
      -- try { await execAsync(cmd) } catch { /* swallowed */ }
      if deleteFails k then acc ++ [k] else acc ++ [k])
    []
  ({ success := true }, attempted)

/-! ### Launch arguments (`electron/main.ts`, `appStore.ts`, `App.vue`) -/

/-- JS `String.prototype.endsWith`, modelled on the character list of
the string. -/
def strEndsWith (s suffixStr : String) : Bool :=
  suffixStr.data.isSuffixOf s.data

/-- `getLaunchFilePath` from `appStore.ts` (lines 93–98): the first
launch argument ending in `.md`, if any
(`launchArgs.value.find((arg) => arg.endsWith('.md'))`). -/
def getLaunchFilePath (launchArgs : List String) : Option String :=
  launchArgs.find? (fun arg => strEndsWith arg ".md")

/-- `args.includes('--register')` from `main.ts` (line 23). -/
def isRegisterMode (args : List String) : Bool :=
  args.contains "--register"

/-- `args.includes('--unregister')` from `main.ts` (line 24). -/
def isUnregisterMode (args : List String) : Bool :=
  args.contains "--unregister"

/-- Which file the application opens at startup, as a function of the
launch arguments (after `main.ts` strips the executable prefix from
`process.argv`): in register/unregister mode the renderer never starts
(`main.ts` lines 28–43); otherwise `App.vue`'s `onMounted`
(lines 178–183) opens `getLaunchFilePath` when it is non-null. -/
def launchOpenTarget (args : List String) : Option String :=
  if isRegisterMode args || isUnregisterMode args then none
  else getLaunchFilePath args

/-! ### Helper lemmas about `updateContent` and update sequences -/

theorem updateContent_content (now : Nat) (u : String) (st : FileStoreState) :
    (updateContent now u st).content = u := by
  simp only [updateContent]
  split_ifs <;> rfl

theorem updateContent_originalContent (now : Nat) (u : String) (st : FileStoreState) :
    (updateContent now u st).originalContent = st.originalContent := by
  simp only [updateContent]
  split_ifs <;> rfl

theorem updateContent_currentFilePath (now : Nat) (u : String) (st : FileStoreState) :
    (updateContent now u st).currentFilePath = st.currentFilePath := by
  simp only [updateContent]
  split_ifs <;> rfl

/-- A non-mutating or reverting `updateContent` call leaves the pending
timer untouched; a dirtying change re-arms it.  Stated as: the result's
timer is either the old one or freshly armed. -/
theorem updateContent_pendingSaveAt (now : Nat) (u : String) (st : FileStoreState) :
    (updateContent now u st).pendingSaveAt = st.pendingSaveAt ∨
    (updateContent now u st).pendingSaveAt = some (now + debounceDelay) := by
  simp only [updateContent]
  split_ifs <;> simp

/-- An `updateContent` call that actually changes the content to a value
differing from `originalContent` re-arms the debounce timer to
`now + debounceDelay`. -/
theorem updateContent_rearm (now : Nat) (u : String) (st : FileStoreState)
    (hchanged : u ≠ st.content) (hdirty : u ≠ st.originalContent) :
    (updateContent now u st).pendingSaveAt = some (now + debounceDelay) := by
  have h1 : (u != st.content) = true := by simpa using hchanged
  have h2 : (u != st.originalContent) = true := by simpa using hdirty
  simp [updateContent, hasUnsavedChanges, h1, h2]

/-- Dirty states keep an armed timer across `updateContent`:
if every dirty state seen so far has a pending timer, that stays true. -/
def ArmedInv (st : FileStoreState) : Prop :=
  st.content ≠ st.originalContent → st.pendingSaveAt ≠ none

theorem armedInv_updateContent (now : Nat) (u : String) (st : FileStoreState)
    (h : ArmedInv st) : ArmedInv (updateContent now u st) := by
  intro hdirty
  rw [updateContent_content] at hdirty
  rw [updateContent_originalContent] at hdirty
  by_cases hchanged : u = st.content
  · -- the watcher does not fire; the old timer (which must exist) survives
    have hold : st.pendingSaveAt ≠ none := by
      apply h
      rw [← hchanged]
      exact hdirty
    have hc : (u != st.content) = false := by simpa using hchanged
    simp only [updateContent, hc, Bool.false_and, Bool.false_eq_true, if_false]
    split <;> exact hold
  · rw [updateContent_rearm now u st hchanged hdirty]
    simp

theorem armedInv_applyUpdates (now : Nat) (us : List String) (st : FileStoreState)
    (h : ArmedInv st) : ArmedInv (applyUpdates now us st) := by
  induction us generalizing st with
  | nil => exact h
  | cons u us ih =>
      exact ih (updateContent now u st) (armedInv_updateContent now u st h)

theorem applyUpdates_originalContent (now : Nat) (us : List String)
    (st : FileStoreState) :
    (applyUpdates now us st).originalContent = st.originalContent := by
  induction us generalizing st with
  | nil => rfl
  | cons u us ih =>
      rw [applyUpdates, List.foldl_cons, ← applyUpdates, ih,
        updateContent_originalContent]

theorem applyUpdates_currentFilePath (now : Nat) (us : List String)
    (st : FileStoreState) :
    (applyUpdates now us st).currentFilePath = st.currentFilePath := by
  induction us generalizing st with
  | nil => rfl
  | cons u us ih =>
      rw [applyUpdates, List.foldl_cons, ← applyUpdates, ih,
        updateContent_currentFilePath]

/-- After a sequence of `updateContent` calls whose last call carries `u`,
the store's content is `u`. -/
theorem applyUpdates_content_last (now : Nat) (us : List String) (u : String)
    (st : FileStoreState) :
    (applyUpdates now (us ++ [u]) st).content = u := by
  induction us generalizing st with
  | nil => simp [applyUpdates, updateContent_content]
  | cons v vs ih =>
      rw [List.cons_append, applyUpdates, List.foldl_cons, ← applyUpdates]
      exact ih (updateContent now v st)

/-! ### Helper lemmas about the save actions and the status invariant -/

/-- `saveFileAt` issues exactly one `writeFile` call, carrying the store's
current content, whether or not the write succeeds. -/
theorem saveFileAt_writes (now : Nat) (p : String) (w : FileOperationResult Unit)
    (st : FileStoreState) :
    (saveFileAt now p w st).writes = [{ path := p, content := st.content }] := by
  simp only [saveFileAt]
  split_ifs <;> rfl

/-- The debounce callback on a path-less document issues no write. -/
theorem fireAutosave_writes_no_path (now : Nat) (w : FileOperationResult Unit)
    (st : FileStoreState) (h : st.currentFilePath = none) :
    (fireAutosave now w st).writes = [] := by
  simp [fireAutosave, h]

/-- The debounce callback on a clean document issues no write. -/
theorem fireAutosave_writes_clean (now : Nat) (w : FileOperationResult Unit)
    (st : FileStoreState) (h : st.content = st.originalContent) :
    (fireAutosave now w st).writes = [] := by
  rcases st with ⟨cfp, c, oc, fm, ss, lsa, em, psa⟩
  have h' : c = oc := h
  subst h'
  cases cfp <;> simp [fireAutosave, hasUnsavedChanges]

/-- The debounce callback on a dirty document with a non-empty known path
issues exactly one write with the current content. -/
theorem fireAutosave_writes_dirty (now : Nat) (w : FileOperationResult Unit)
    (st : FileStoreState) (p : String) (hp : st.currentFilePath = some p)
    (hpne : p ≠ "") (hdirty : st.content ≠ st.originalContent) :
    (fireAutosave now w st).writes = [{ path := p, content := st.content }] := by
  rcases st with ⟨cfp, c, oc, fm, ss, lsa, em, psa⟩
  have h' : cfp = some p := hp
  subst h'
  have hd : (c != oc) = true := by simpa using hdirty
  have hpb : (p != "") = true := by simpa using hpne
  simp [fireAutosave, hasUnsavedChanges, hd, hpb, saveFileAt_writes]

/-- The status/dirtiness invariant: a store whose status reads `'saved'`
has `content = originalContent`. -/
def StatusInv (st : FileStoreState) : Prop :=
  st.saveStatus = SaveStatus.saved → st.content = st.originalContent

theorem statusInv_updateContent (now : Nat) (u : String) (st : FileStoreState) :
    StatusInv (updateContent now u st) := by
  intro hsaved
  rw [updateContent_content, updateContent_originalContent]
  by_contra hne
  have hd : (u != st.originalContent) = true := by simpa using hne
  have hun : (updateContent now u st).saveStatus = SaveStatus.unsaved := by
    cases hc : u != st.content <;>
      simp [updateContent, hasUnsavedChanges, hc, hd]
  rw [hun] at hsaved
  exact absurd hsaved (by decide)

theorem statusInv_openFile (p : String) (r : FileOperationResult String)
    (m : FileOperationResult FileMetadata) (st : FileStoreState) :
    StatusInv (openFile p r m st).1 := by
  rcases r with ⟨rs, rd, re, rc⟩
  rcases m with ⟨ms, md, me, mc⟩
  cases rs <;> cases rd <;> cases ms <;> cases md <;>
    simp [StatusInv, openFile, openFileFinish, openFileBegin]

theorem statusInv_saveFileAt (now : Nat) (p : String) (w : FileOperationResult Unit)
    (st : FileStoreState) : StatusInv (saveFileAt now p w st).state := by
  cases hws : w.success <;> simp [StatusInv, saveFileAt, hws]

theorem statusInv_saveFileAs (now : Nat) (d : FileOperationResult String)
    (w : FileOperationResult Unit) (st : FileStoreState) (h : StatusInv st) :
    StatusInv (saveFileAs now d w st).state := by
  rcases d with ⟨ds, dd, de, dc⟩
  cases ds with
  | false => cases dd <;> exact h
  | true =>
      cases dd with
      | none => exact h
      | some p =>
          simp only [saveFileAs]
          split_ifs with hp
          · exact h
          · exact statusInv_saveFileAt now p w st

theorem statusInv_saveFile (now : Nat) (fp : Option String)
    (d : FileOperationResult String) (w : FileOperationResult Unit)
    (st : FileStoreState) (h : StatusInv st) :
    StatusInv (saveFile now fp d w st).state := by
  unfold saveFile
  cases fp.orElse fun _ => st.currentFilePath with
  | none => exact statusInv_saveFileAs now d w st h
  | some tp =>
      show StatusInv
        (if tp = "" then saveFileAs now d w st else saveFileAt now tp w st).state
      split_ifs with htp
      · exact statusInv_saveFileAs now d w st h
      · exact statusInv_saveFileAt now tp w st

theorem statusInv_createNewFile (st : FileStoreState) :
    StatusInv (createNewFile st) := by
  intro _
  rfl

theorem statusInv_fireAutosave (now : Nat) (w : FileOperationResult Unit)
    (st : FileStoreState) (h : StatusInv st) :
    StatusInv (fireAutosave now w st).state := by
  rcases st with ⟨cfp, c, oc, fm, ss, lsa, em, psa⟩
  cases cfp with
  | none => exact h
  | some p =>
      simp only [fireAutosave]
      split_ifs with hc
      · exact statusInv_saveFileAt now p w _
      · exact h

theorem statusInv_step (st : FileStoreState) (op : Op) (h : StatusInv st) :
    StatusInv (step st op) := by
  cases op with
  | update now s => exact statusInv_updateContent now s st
  | openF p r m => exact statusInv_openFile p r m st
  | save now d w => exact statusInv_saveFile now none d w st h
  | saveAs now d w => exact statusInv_saveFileAs now d w st h
  | newFile => exact statusInv_createNewFile st
  | autosave now w => exact statusInv_fireAutosave now w st h

theorem statusInv_run (ops : List Op) : StatusInv (run ops) := by
  have key : ∀ (l : List Op) (st : FileStoreState),
      StatusInv st → StatusInv (l.foldl step st) := by
    intro l
    induction l with
    | nil => intro st h; exact h
    | cons op l ih =>
        intro st h
        exact ih (step st op) (statusInv_step st op h)
  exact key ops initialState (fun _ => rfl)

/-- Reduction of `runUpdatesThenFire` to its two phases. -/
theorem runUpdatesThenFire_writes (now : Nat) (w : FileOperationResult Unit)
    (us : List String) (st : FileStoreState) :
    (runUpdatesThenFire now w us st).2 =
      if (applyUpdates now us st).pendingSaveAt = none then []
      else (fireAutosave now w (applyUpdates now us st)).writes := by
  unfold runUpdatesThenFire
  cases hps : (applyUpdates now us st).pendingSaveAt <;> simp [hps]

/-! ### Claim theorems -/

/-- Claim C3: for every sequence of `updateContent` calls with no
intervening `saveFile` or `openFile` (and hence no debounce fire),
`hasUnsavedChanges` is true exactly when the content of the latest
`updateContent` call differs from `originalContent`, the last
successfully saved or loaded content. -/
theorem claim_C3_hasUnsavedChanges_iff_last_differs (now : Nat)
    (st : FileStoreState) (us : List String) (u : String) :
    hasUnsavedChanges (applyUpdates now (us ++ [u]) st) = true ↔
      u ≠ st.originalContent := by
  unfold hasUnsavedChanges
  rw [applyUpdates_content_last, applyUpdates_originalContent]
  simp

/-- Claim C4, counterexample: `saveStatus` is not a pure function of
(content vs originalContent, in-flight save).  The initial state and the
state after `updateContent "x"` then `updateContent ""` (a revert) are
both clean, with no operation in flight, yet one reports `'saved'` and
the other `'unsaved'`. -/
theorem claim_C4_counterexample :
    hasUnsavedChanges (run []) =
        hasUnsavedChanges (run [Op.update 0 "x", Op.update 0 ""]) ∧
      (run []).saveStatus ≠ (run [Op.update 0 "x", Op.update 0 ""]).saveStatus := by
  decide

/-- Claim C4 (amended): in every state reachable by completed
`openFile`, `saveFile`, `saveFileAs`, `createNewFile` and `updateContent`
operations (including autosave fires), the store is never simultaneously
in status `'saved'` and dirty — though the status is not a pure function
of dirtiness, since a clean store may report `'unsaved'` or `'error'`. -/
theorem claim_C4_saved_never_dirty (ops : List Op)
    (h : (run ops).saveStatus = SaveStatus.saved) :
    hasUnsavedChanges (run ops) = false := by
  have hc := statusInv_run ops h
  simp [hasUnsavedChanges, hc]

/-- Witness for claim C4 at the empty operation sequence. -/
theorem claim_C4_witness : hasUnsavedChanges (run []) = false :=
  claim_C4_saved_never_dirty [] rfl

/-- Claim C10: `openFile` sets `saveStatus` to `'saving'` (and clears the
error message) before awaiting the file read — the `'saving'` status is
reused as a loading indicator for the whole duration of the read — and
the full operation factors through that intermediate state. -/
theorem claim_C10_open_reports_saving (st : FileStoreState) :
    (openFileBegin st).saveStatus = SaveStatus.saving ∧
      (openFileBegin st).errorMessage = none ∧
      ∀ (filePath : String) (readRes : FileOperationResult String)
        (metaRes : FileOperationResult FileMetadata),
        openFile filePath readRes metaRes st =
          openFileFinish filePath readRes metaRes (openFileBegin st) :=
  ⟨rfl, rfl, fun _ _ _ => rfl⟩

/-- Claim C5: when the file read behind `openFile` fails, the status
becomes `'error'`, the error message holds the failure message, the
document state (content, originalContent, currentFilePath) is exactly
what it was before the call, and the operation returns `false`.  The
model issues the single read whose outcome is `readRes`; no retry
exists by construction. -/
theorem claim_C5_openFile_failure (st : FileStoreState) (filePath : String)
    (readRes : FileOperationResult String)
    (metaRes : FileOperationResult FileMetadata)
    (hfail : readRes.success = false ∨ readRes.data = none) :
    (openFile filePath readRes metaRes st).1.saveStatus = SaveStatus.error ∧
      (openFile filePath readRes metaRes st).1.errorMessage =
        some (readRes.error.getD "读取文件失败") ∧
      (openFile filePath readRes metaRes st).1.content = st.content ∧
      (openFile filePath readRes metaRes st).1.originalContent =
        st.originalContent ∧
      (openFile filePath readRes metaRes st).1.currentFilePath =
        st.currentFilePath ∧
      (openFile filePath readRes metaRes st).2 = false := by
  rcases readRes with ⟨rs, rd, re, rc⟩
  cases rs <;> cases rd <;>
    simp_all [openFile, openFileFinish, openFileBegin]

/-- Witness for claim C5: a missing-file read against the initial state. -/
theorem claim_C5_witness :
    (openFile "C:\\missing.md"
        { success := false, data := none, error := some "ENOENT", errorCode := none }
        { success := false, data := none, error := none, errorCode := none }
        initialState).1.saveStatus = SaveStatus.error ∧
      (openFile "C:\\missing.md"
        { success := false, data := none, error := some "ENOENT", errorCode := none }
        { success := false, data := none, error := none, errorCode := none }
        initialState).1.errorMessage = some "ENOENT" ∧
      (openFile "C:\\missing.md"
        { success := false, data := none, error := some "ENOENT", errorCode := none }
        { success := false, data := none, error := none, errorCode := none }
        initialState).1.content = initialState.content ∧
      (openFile "C:\\missing.md"
        { success := false, data := none, error := some "ENOENT", errorCode := none }
        { success := false, data := none, error := none, errorCode := none }
        initialState).1.originalContent = initialState.originalContent ∧
      (openFile "C:\\missing.md"
        { success := false, data := none, error := some "ENOENT", errorCode := none }
        { success := false, data := none, error := none, errorCode := none }
        initialState).1.currentFilePath = initialState.currentFilePath ∧
      (openFile "C:\\missing.md"
        { success := false, data := none, error := some "ENOENT", errorCode := none }
        { success := false, data := none, error := none, errorCode := none }
        initialState).2 = false :=
  claim_C5_openFile_failure initialState "C:\\missing.md"
    { success := false, data := none, error := some "ENOENT", errorCode := none }
    { success := false, data := none, error := none, errorCode := none }
    (Or.inl rfl)

/-- Claim C7: the scroll percentage emitted by the view scroll handlers
is exactly 0 when the content fits without overflow
(`scrollHeight ≤ clientHeight`), and — given the DOM guarantee
`0 ≤ scrollTop` — is never negative; the division by
`scrollHeight - clientHeight` happens only when that difference is
strictly positive, so no NaN can arise. -/
theorem claim_C7_scroll_percentage_safe (scrollTop scrollHeight clientHeight : ℚ)
    (h : 0 ≤ scrollTop) :
    (scrollHeight ≤ clientHeight →
        scrollPercentage scrollTop scrollHeight clientHeight = 0) ∧
      0 ≤ scrollPercentage scrollTop scrollHeight clientHeight := by
  constructor
  · intro hle
    have hng : ¬scrollHeight - clientHeight > 0 := by linarith
    simp [scrollPercentage, hng]
  · simp only [scrollPercentage]
    split_ifs with hgt
    · exact div_nonneg h (le_of_lt hgt)
    · exact le_refl 0

/-- Witness for claim C7 on a view whose content fits (height 2 in a
viewport of 5). -/
theorem claim_C7_witness :
    ((2 : ℚ) ≤ 5 → scrollPercentage 0 2 5 = 0) ∧
      (0 : ℚ) ≤ scrollPercentage 0 2 5 :=
  claim_C7_scroll_percentage_safe 0 2 5 (le_refl 0)

/-- Claim C8, counterexample: `unregisterWindowsIntegration` does delete
the shared `.md` extension-association key wholesale — the key itself is
in the list passed to `reg delete … /f` (shown here for the non-elevated
root with every deletion succeeding). -/
theorem claim_C8_counterexample :
    mdExtensionKey false ∈
      (unregisterWindowsIntegration false (fun _ => false)).2 := by
  decide

/-- Claim C8 (amended): `unregisterWindowsIntegration` deletes exactly
the four keys of `unregisterDeleteKeys` — among them the shared `.md`
extension-association key, wholesale — attempting every deletion
regardless of which individual `reg delete` calls fail; every failure is
swallowed and the operation always reports success. -/
theorem claim_C8_unregister_swallows_failures (admin : Bool)
    (deleteFails : String → Bool) :
    (unregisterWindowsIntegration admin deleteFails).1 =
        { success := true, error := none, requiresAdmin := none } ∧
      (unregisterWindowsIntegration admin deleteFails).2 =
        unregisterDeleteKeys admin ∧
      mdExtensionKey admin ∈ (unregisterWindowsIntegration admin deleteFails).2 := by
  have hfold : ∀ (l acc : List String),
      l.foldl (fun a k => if deleteFails k then a ++ [k] else a ++ [k]) acc =
        acc ++ l := by
    intro l
    induction l with
    | nil => intro acc; simp
    | cons x xs ih =>
        intro acc
        simp only [ite_self] at ih ⊢
        rw [List.foldl_cons, ih]
        simp
  have hkeys : (unregisterWindowsIntegration admin deleteFails).2 =
      unregisterDeleteKeys admin := by
    unfold unregisterWindowsIntegration
    rw [hfold]
    simp
  refine ⟨rfl, hkeys, ?_⟩
  rw [hkeys]
  unfold unregisterDeleteKeys mdExtensionKey
  simp

/-- Claim C9, counterexample: a bare invocation whose trailing path does
not end in `.md` is not opened — `getLaunchFilePath` only recognises
`.md`-suffixed arguments, so the application opens nothing. -/
theorem claim_C9_counterexample :
    launchOpenTarget ["C:\\notes.txt"] = none := by
  decide

/-- First element of a list whose tail starts after a prefix rejected by
the predicate. -/
theorem find?_append_singleton (f : String → Bool) (pre : List String)
    (p : String) (hpre : ∀ a ∈ pre, f a = false) (hp : f p = true) :
    (pre ++ [p]).find? f = some p := by
  induction pre with
  | nil => simp [List.find?, hp]
  | cons a as ih =>
      have ha : f a = false := hpre a (by simp)
      rw [List.cons_append, List.find?_cons_of_neg _ (by simp [ha])]
      exact ih (fun x hx => hpre x (by simp [hx]))

/-- Claim C9 (amended): for a bare invocation (no `--register` /
`--unregister`) whose trailing file path ends in `.md` and whose other
arguments do not, the application opens that file at startup; paths with
any other extension are never opened. -/
theorem claim_C9_md_launch_opened (pre : List String) (p : String)
    (hreg : isRegisterMode (pre ++ [p]) = false)
    (hunreg : isUnregisterMode (pre ++ [p]) = false)
    (hpre : ∀ a ∈ pre, strEndsWith a ".md" = false)
    (hp : strEndsWith p ".md" = true) :
    launchOpenTarget (pre ++ [p]) = some p := by
  unfold launchOpenTarget getLaunchFilePath
  rw [hreg, hunreg]
  simp only [Bool.or_self, Bool.false_eq_true, if_false]
  exact find?_append_singleton _ pre p hpre hp

/-- Witness for claim C9: launching with the single argument
`C:\note.md` opens that file. -/
theorem claim_C9_witness : launchOpenTarget ["C:\\note.md"] = some "C:\\note.md" :=
  claim_C9_md_launch_opened [] "C:\\note.md" (by decide) (by decide)
    (by simp) (by decide)

/-- Claim C6: while sync-scroll is enabled, a user-initiated scroll in
one view makes the coordinator issue at most one cross-view
`scrollToPercentage` command; the scroll event that command provokes in
the other view arrives while the `isSyncingScroll` flag is still raised
and is absorbed, so the originating view is never re-commanded — no
ping-pong. -/
theorem claim_C6_no_ping_pong (syncScroll : Bool) (refs : ViewRefs)
    (origin : View) (p pProvoked : ℚ) (st : CoordinatorState) :
    (processUserScroll syncScroll refs origin p pProvoked st).2.length ≤ 1 ∧
      (processUserScroll syncScroll refs origin p pProvoked st).2.all
        (fun c => c.target != origin) = true := by
  rcases st with ⟨flag⟩
  rcases refs with ⟨ea, pa⟩
  cases origin <;> cases syncScroll <;> cases flag <;> cases ea <;> cases pa <;>
    simp [processUserScroll, handleViewScroll, View.other, ViewRefs.available,
      bne_iff_ne]

/-- Dirty, never-yet-autosaved document state used to exercise the
debounce policy. -/
def dirtyDocState : FileStoreState :=
  { currentFilePath := some "C:\\notes\\a.md"
    content := "x"
    originalContent := "o"
    fileMetadata := none
    saveStatus := SaveStatus.unsaved
    lastSavedAt := none
    errorMessage := none
    pendingSaveAt := none }

/-- Claim C1, counterexample: not every `updateContent` call re-arms the
autosave timer — reverting the content to `originalContent` leaves no
timer armed — and when the timer is armed, its delay is the fixed
`debounceDelay` (1000 ms), not the user-configured `autoSaveDelay`
setting (here configured to 2000 ms). -/
theorem claim_C1_counterexample :
    (updateContent 7 "o" dirtyDocState).pendingSaveAt = none ∧
      (updateContent 7 "z" dirtyDocState).pendingSaveAt =
        some (7 + debounceDelay) ∧
      7 + debounceDelay ≠
        7 + ({ DEFAULT_SETTINGS with autoSaveDelay := 2000 } : AppSettings).autoSaveDelay := by
  decide

/-- Claim C1 (amended): every `updateContent` call that changes the
content to a value differing from `originalContent` (re)arms the
trailing-edge debounce timer, with the fixed 1000 ms `debounceDelay`
(the configured `autoSaveDelay` setting is not consulted); the deferred
write fires only if at that moment the document has a known path and is
dirty — in particular a path-less document is never autosaved
implicitly, and neither is a clean one. -/
theorem claim_C1_debounce_policy :
    (∀ (st : FileStoreState) (now : Nat) (s : String), s ≠ st.content →
        s ≠ st.originalContent →
        (updateContent now s st).pendingSaveAt = some (now + debounceDelay)) ∧
      (∀ (st : FileStoreState) (now : Nat) (w : FileOperationResult Unit),
        st.currentFilePath = none → (fireAutosave now w st).writes = []) ∧
      (∀ (st : FileStoreState) (now : Nat) (w : FileOperationResult Unit),
        st.content = st.originalContent → (fireAutosave now w st).writes = []) :=
  ⟨fun st now s h1 h2 => updateContent_rearm now s st h1 h2,
   fun st now w h => fireAutosave_writes_no_path now w st h,
   fun st now w h => fireAutosave_writes_clean now w st h⟩

/-- Witness for claim C1: a dirtying edit arms the timer 1000 ms out; a
path-less document and a clean document are not autosaved. -/
theorem claim_C1_witness :
    (updateContent 3 "hello" initialState).pendingSaveAt =
        some (3 + debounceDelay) ∧
      (fireAutosave 5 { success := true } initialState).writes = [] ∧
      (fireAutosave 6 { success := true }
        { initialState with currentFilePath := some "C:\\a.md" }).writes = [] :=
  ⟨claim_C1_debounce_policy.1 initialState 3 "hello" (by decide) (by decide),
   claim_C1_debounce_policy.2.1 initialState 5 { success := true } rfl,
   claim_C1_debounce_policy.2.2
     { initialState with currentFilePath := some "C:\\a.md" } 6
     { success := true } rfl⟩

/-- Clean document state with a known path, as after a successful open
or save. -/
def cleanDocState : FileStoreState :=
  { currentFilePath := some "C:\\notes\\a.md"
    content := "x"
    originalContent := "x"
    fileMetadata := none
    saveStatus := SaveStatus.saved
    lastSavedAt := none
    errorMessage := none
    pendingSaveAt := none }

/-- Claim C2, counterexample: two rapid `updateContent` calls on a
document with a known path — `"y"` then back to the original `"x"` —
within one debounce window followed by a quiet period issue zero
`writeFile` calls, not exactly one: at fire time the document is clean
again, so the guard skips the write. -/
theorem claim_C2_counterexample :
    (runUpdatesThenFire 0 { success := true } ["y", "x"] cleanDocState).2 = [] ∧
      cleanDocState.currentFilePath = some "C:\\notes\\a.md" := by
  decide

/-- Claim C2 (amended): starting from a clean document with a known
non-empty path and no pending timer, `N ≥ 1` rapid `updateContent` calls
within one debounce window followed by a quiet period issue exactly one
`writeFile` call, whose content is the content of the last call —
provided that last content differs from `originalContent`; when the
edits net out to the original content, no write is issued at all. -/
theorem claim_C2_debounce_single_write (st : FileStoreState) (p : String)
    (now : Nat) (w : FileOperationResult Unit) (us : List String) (u : String)
    (hpath : st.currentFilePath = some p) (hpne : p ≠ "")
    (hclean : st.content = st.originalContent) :
    (runUpdatesThenFire now w (us ++ [u]) st).2 =
      if u = st.originalContent then []
      else [{ path := p, content := u }] := by
  rw [runUpdatesThenFire_writes]
  by_cases hu : u = st.originalContent
  · rw [if_pos hu]
    split_ifs with hps
    · rfl
    · exact fireAutosave_writes_clean now w _
        (by rw [applyUpdates_content_last, applyUpdates_originalContent, hu])
  · rw [if_neg hu]
    have harmed : (applyUpdates now (us ++ [u]) st).pendingSaveAt ≠ none := by
      refine armedInv_applyUpdates now (us ++ [u]) st ?_ ?_
      · intro hd
        exact absurd hclean hd
      · rw [applyUpdates_content_last, applyUpdates_originalContent]
        exact hu
    rw [if_neg harmed]
    have hw := fireAutosave_writes_dirty now w (applyUpdates now (us ++ [u]) st) p
      (by rw [applyUpdates_currentFilePath, hpath]) hpne
      (by rw [applyUpdates_content_last, applyUpdates_originalContent]; exact hu)
    rw [hw, applyUpdates_content_last]

/-- Witness for claim C2: a single `updateContent "hello"` on a clean
document with a path, followed by a quiet period, writes `"hello"` to
that path exactly once. -/
theorem claim_C2_witness :
    (runUpdatesThenFire 0 { success := true } ([] ++ ["hello"]) cleanDocState).2 =
      if "hello" = cleanDocState.originalContent then []
      else [{ path := "C:\\notes\\a.md", content := "hello" }] :=
  claim_C2_debounce_single_write cleanDocState "C:\\notes\\a.md" 0
    { success := true } [] "hello" rfl (by decide) rfl

end OxNote
